import Mathlib

/-!
Shallow embedding of the tenant-isolation and first-aid-box ledger logic of
the `antigraph` repository (files `app/utils_college.py` and
`app/routers/first_aid.py`), together with theorems checking the
specification's claims about it.

Conventions of the embedding:
* Python `Optional[str]` values become `Option String`; Python truthiness of
  such a value (`None` and `""` are falsy) is `strTruthy`.
* The SQL tables touched by the box operations become explicit lists of rows
  inside a `DBState` record; `UPDATE ... WHERE drug_id = :did` becomes a map
  over the rows, `INSERT` an append, `SELECT ... fetchone()` a `List.find?`.
* A raised `HTTPException` becomes an `HttpError` value; handlers that catch
  exceptions and redirect are modelled by explicit result types.
* The external `excel_data_reference.get_drug_stock` lookup (not part of the
  translated sources) is passed in as an oracle argument, and storage failure
  of the ledger writes is modelled by a boolean `ledgerOk` argument: when it
  is `false` the whole ledger block raises and the handler swallows the
  error, leaving the ledger untouched (mirroring the `except ... print`
  blocks in the source).
-/

namespace Antigraph

/-- Python truthiness of an optional string: `None` and `""` are falsy. -/
def strTruthy : Option String → Bool
  | none => false
  | some s => s ≠ ""

/-- Python `.strip()` on the character list: drop whitespace from both ends.
Written by structural recursion so that it evaluates inside the kernel. -/
def stripChars (cs : List Char) : List Char :=
  ((cs.dropWhile Char.isWhitespace).reverse.dropWhile Char.isWhitespace).reverse

/-- Python `.strip().lower()`, used by the college comparison code (ASCII
lowercasing, which is what the compared college keys use). -/
def pyNorm (s : String) : String := ⟨(stripChars s.data).map Char.toLower⟩

/-- A user row, with the role flags and per-role college columns used by
`app/utils_college.py`. -/
structure User where
  id : Nat
  is_admin : Bool
  is_doc : Bool
  doctor_college : Option String
  is_college_admin : Bool
  college_admin_college : Option String
  is_hod : Bool
  hod_college : Option String
deriving Repr, DecidableEq

/-- Embedding of `get_user_college` from `app/utils_college.py` (lines 14-48): admin users
resolve to `None`; otherwise the first role flag whose college column is
truthy wins, in the order doctor, college admin, head of department. -/
def get_user_college : Option User → Option String
  | none => none
  | some u =>
    if u.is_admin then none
    else if u.is_doc && strTruthy u.doctor_college then u.doctor_college
    else if u.is_college_admin && strTruthy u.college_admin_college then u.college_admin_college
    else if u.is_hod && strTruthy u.hod_college then u.hod_college
    else none

/-- Embedding of `verify_college_access` from `app/utils_college.py` (lines 51-76). -/
def verify_college_access : Option User → Option String → Bool
  | none, _ => false
  | some _, none => false
  | some u, some c =>
    if c = "" then false
    else if u.is_admin then true
    else
      match get_user_college (some u) with
      | none => false
      | some uc => pyNorm uc = pyNorm c

/-- Embedding of `validate_college_assignment` from `app/utils_college.py` (lines 139-184).
Returns the `(is_valid, message)` pair; messages are shortened forms of the
source's f-strings. -/
def validate_college_assignment (user : Option User) (college : Option String) :
    Bool × String :=
  match user with
  | none => (false, "User not found")
  | some u =>
    if !strTruthy college then (false, "College not specified")
    else
      let c := college.getD ""
      if u.is_admin then (true, "Admin has full access to all colleges")
      else if u.is_doc then
        if !strTruthy u.doctor_college then (false, "Doctor has no college assigned")
        else if pyNorm (u.doctor_college.getD "") ≠ pyNorm c then
          (false, "Doctor can only access their assigned college")
        else (true, "Doctor has access to college")
      else if u.is_college_admin then
        if !strTruthy u.college_admin_college then
          (false, "College admin has no college assigned")
        else if pyNorm (u.college_admin_college.getD "") ≠ pyNorm c then
          (false, "College admin can only access their assigned college")
        else (true, "College admin has access to college")
      else if u.is_hod then
        if !strTruthy u.hod_college then (false, "HOD has no college assigned")
        else if pyNorm (u.hod_college.getD "") ≠ pyNorm c then
          (false, "HOD can only access their assigned college")
        else (true, "HOD has access to college")
      else (false, "User has no recognized role with college access")

/-- An `HTTPException` raised by the handlers: status code and detail. -/
structure HttpError where
  status : Nat
  detail : String
deriving Repr, DecidableEq

/-- Embedding of `prevent_cross_college_access` from `app/utils_college.py` (lines
218-249), as a decision returning either unit or the raised error. -/
def prevent_cross_college_access (user : Option User) (target_college : Option String) :
    Except HttpError Unit :=
  match user with
  | none => .error ⟨401, "Authentication required"⟩
  | some u =>
    if !strTruthy target_college then .error ⟨400, "College not specified"⟩
    else
      let r := validate_college_assignment (some u) target_college
      if r.1 then .ok () else .error ⟨403, r.2⟩

/-- A row of the `drugs` table, restricted to the columns the box handlers
read (`SELECT id FROM drugs WHERE drug_code = :code`). -/
structure DrugRow where
  id : Nat
  drug_code : String
deriving Repr, DecidableEq

/-- A row of `warehouse_stock` or `pharmacy_stock`. -/
structure StockRow where
  drug_id : Nat
  balance_qty : Int
  college : Option String
  last_updated : Option Nat
deriving Repr, DecidableEq

/-- A row of `drug_transactions` (the append-only audit log). -/
structure TransactionRecord where
  drug_id : Nat
  drug_code : String
  transaction_type : String
  quantity_change : Int
  source : String
  destination : String
  note : String
  created_by : Nat
deriving Repr, DecidableEq

/-- A row of `first_aid_boxes` (model `FirstAidBox`). -/
structure FirstAidBox where
  id : Nat
  box_name : String
  location : String
  college_id : Option String
  created_by_user_id : Nat
  last_reviewed_at : Option Nat
deriving Repr, DecidableEq

/-- A row of `first_aid_box_items` (model `FirstAidBoxItem`).  The expiry
date is carried already parsed (the handler's `strptime` step is abstracted:
an unparsable form value is the same as an absent one). -/
structure FirstAidBoxItem where
  id : Nat
  box_id : Nat
  college_id : String
  drug_name : String
  drug_code : Option String
  quantity : Int
  unit : String
  expiry_date : Option Nat
  notes : Option String
deriving Repr, DecidableEq

/-- The database state touched by the first-aid handlers. -/
structure DBState where
  drugs : List DrugRow
  warehouse_stock : List StockRow
  pharmacy_stock : List StockRow
  drug_transactions : List TransactionRecord
  boxes : List FirstAidBox
  box_items : List FirstAidBoxItem
deriving Repr, DecidableEq

/-- Whether a stock table has a row for the drug
(`SELECT id FROM ... WHERE drug_id = :did` followed by a truthiness test). -/
def hasRow (rows : List StockRow) (did : Nat) : Bool :=
  (rows.find? (fun r => r.drug_id == did)).isSome

/-- The recorded balance for a drug: the first matching row's quantity, `0`
when no row exists. -/
def balanceOf (rows : List StockRow) (did : Nat) : Int :=
  match rows.find? (fun r => r.drug_id == did) with
  | some r => r.balance_qty
  | none => 0

/-- Embedding of `UPDATE ... SET balance_qty = balance_qty + :delta [, college = :college]
WHERE drug_id = :did`; `setCollege` records whether the statement also
overwrites the college column (the add path does, the delete path does not). -/
def updateStockRows (rows : List StockRow) (did : Nat) (delta : Int)
    (setCollege : Bool) (college : Option String) (now : Nat) : List StockRow :=
  rows.map fun r =>
    if r.drug_id == did then
      { r with balance_qty := r.balance_qty + delta,
               college := if setCollege then college else r.college,
               last_updated := some now }
    else r

/-- The update-or-insert step of `add_item`: update the row when one exists,
otherwise insert a fresh row whose balance is the signed delta itself. -/
def upsertStock (rows : List StockRow) (did : Nat) (delta : Int)
    (college : Option String) (now : Nat) : List StockRow :=
  if hasRow rows did then updateStockRows rows did delta true college now
  else rows ++ [{ drug_id := did, balance_qty := delta, college := college,
                  last_updated := none }]

/-- The `if box.college_id: prevent_cross_college_access(...)` guard shared
by `box_detail`, `add_item` and `delete_item`. -/
def boxGuard (user : Option User) (box : FirstAidBox) : Except HttpError Unit :=
  if strTruthy box.college_id then prevent_cross_college_access user box.college_id
  else .ok ()

/-- The advisory stock pre-check of `add_item` (lines 262-283).  `info` is
the result of the external `excel_data_reference.get_drug_stock(drug_code)`
lookup (modelled from the spec's `GetPharmacyAvailableQuantity` collaborator;
`none` covers both a failing lookup and an empty result, which the source
swallows with `pass`).  Returns `true` when the handler redirects back to the
form with an error instead of proceeding. -/
def precheckBlocked (drug_code : Option String) (info : Option Int)
    (quantity : Int) : Bool :=
  if strTruthy drug_code then
    match info with
    | some available => decide (quantity > available)
    | none => false
  else false

/-- Embedding of `box_public_detail` from `app/routers/first_aid.py` (lines 20-50): the
unauthenticated public page.  It only reads the box; the returned state is
the input state (the handler performs no write). -/
def box_public_detail (s : DBState) (box_id : Nat) :
    Except HttpError (FirstAidBox × DBState) :=
  match s.boxes.find? (fun b => b.id == box_id) with
  | none => .error ⟨404, "box not found"⟩
  | some box => .ok (box, s)

/-- Embedding of `box_detail` from `app/routers/first_aid.py` (lines 138-183): 404 when
the box is missing, the college guard when the box's college is set, then a
write-on-read of `last_reviewed_at` before returning the box. -/
def box_detail (s : DBState) (box_id : Nat) (user : Option User) (now : Nat) :
    Except HttpError (FirstAidBox × DBState) :=
  match s.boxes.find? (fun b => b.id == box_id) with
  | none => .error ⟨404, "box not found"⟩
  | some box =>
    match boxGuard user box with
    | .error e => .error e
    | .ok _ =>
      .ok ({ box with last_reviewed_at := some now },
        { s with boxes := s.boxes.map fun b =>
            if b.id == box_id then { b with last_reviewed_at := some now } else b })

/-- Embedding of `filter_by_college` from `app/utils_college.py` (lines 79-114),
specialised to `FirstAidBox` (which has a `college_id` column, the preferred
branch).  The SQL `college_id == value` comparison never matches a NULL
column. -/
def filter_by_college (query : List FirstAidBox) (user : Option User) :
    List FirstAidBox :=
  match user with
  | none => query
  | some u =>
    if u.is_admin then query
    else
      match get_user_college (some u) with
      | none => query
      | some uc => query.filter (fun b => b.college_id == some uc)

/-- Embedding of `boxes_list` from `app/routers/first_aid.py` (lines 76-95): the box query
filtered by the user's college (also the query made by `fa_index`). -/
def boxes_list (s : DBState) (user : Option User) : List FirstAidBox :=
  filter_by_college s.boxes user

/-- Outcome of the `add_item` handler: either the success redirect to
the box page, or a redirect back to the add-item form with an error (the
handler's outer `except` turns any raised exception into the latter). -/
inductive AddItemResult where
  | success
  | formError (msg : String)
deriving Repr, DecidableEq

/-- Embedding of `add_item` from `app/routers/first_aid.py` (lines 232-387).  Arguments
beyond the form fields: `pharmacyStockInfo` is the external stock-lookup
oracle fed to `precheckBlocked`, `new_item_id` the id the database assigns to
the inserted row, `ledgerOk` whether the ledger writes succeed (when `false`
the `except` block swallows the failure), `now` the clock. -/
def add_item (s : DBState) (box_id : Nat) (user : Option User) (actor_id : Nat)
    (drug_name : String) (drug_code : Option String) (quantity : Int)
    (unit : String) (expiry_date : Option Nat) (notes : Option String)
    (pharmacyStockInfo : Option Int) (new_item_id : Nat) (ledgerOk : Bool)
    (now : Nat) : AddItemResult × DBState :=
  match get_user_college user with
  | none => (.formError "cannot add an item without a college assignment", s)
  | some user_college =>
    match s.boxes.find? (fun b => b.id == box_id) with
    | none => (.formError "box not found", s)
    | some box =>
      match boxGuard user box with
      | .error e => (.formError e.detail, s)
      | .ok _ =>
        if precheckBlocked drug_code pharmacyStockInfo quantity then
          (.formError "requested quantity exceeds available stock", s)
        else
          let item : FirstAidBoxItem :=
            { id := new_item_id, box_id := box_id, college_id := user_college,
              drug_name := drug_name, drug_code := drug_code,
              quantity := quantity, unit := unit, expiry_date := expiry_date,
              notes := notes }
          let s1 := { s with box_items := s.box_items ++ [item] }
          if strTruthy drug_code then
            if ledgerOk then
              match s1.drugs.find? (fun d => d.drug_code == drug_code.getD "") with
              | none => (.success, s1)
              | some drow =>
                let wh := upsertStock s1.warehouse_stock drow.id (-quantity)
                  (some user_college) now
                let ph := upsertStock s1.pharmacy_stock drow.id (-quantity)
                  (some user_college) now
                let tx : TransactionRecord :=
                  { drug_id := drow.id, drug_code := drug_code.getD "",
                    transaction_type := "warehouse_to_box",
                    quantity_change := -quantity, source := "warehouse",
                    destination := "box_" ++ toString box_id,
                    note := "added to box", created_by := actor_id }
                (.success, { s1 with
                  warehouse_stock := wh, pharmacy_stock := ph,
                  drug_transactions := s1.drug_transactions ++ [tx] })
            else (.success, s1)
          else (.success, s1)

/-- Outcome of the `delete_item` handler: success redirect, or the HTTP 400
the outer `except` re-raises for any failure inside the handler. -/
inductive DeleteItemResult where
  | success
  | httpError (e : HttpError)
deriving Repr, DecidableEq

/-- Embedding of `delete_item` from `app/routers/first_aid.py` (lines 390-476): box
lookup, college guard, item lookup by id and box membership, deletion of the
item, then the best-effort restore of both balances and the `box_return`
audit record.  The restore path is plain `UPDATE`s (no insert-if-missing)
and does not touch the college column. -/
def delete_item (s : DBState) (box_id item_id : Nat) (user : Option User)
    (actor_id : Nat) (ledgerOk : Bool) (now : Nat) :
    DeleteItemResult × DBState :=
  match s.boxes.find? (fun b => b.id == box_id) with
  | none => (.httpError ⟨400, "box not found"⟩, s)
  | some box =>
    match boxGuard user box with
    | .error e => (.httpError ⟨400, e.detail⟩, s)
    | .ok _ =>
      match s.box_items.find? (fun it => it.id == item_id && it.box_id == box_id) with
      | none => (.httpError ⟨400, "item not found"⟩, s)
      | some item =>
        let s1 := { s with box_items :=
          s.box_items.filter (fun it => !(it.id == item_id && it.box_id == box_id)) }
        if strTruthy item.drug_code then
          if ledgerOk then
            match s1.drugs.find? (fun d => d.drug_code == item.drug_code.getD "") with
            | none => (.success, s1)
            | some drow =>
              let wh := updateStockRows s1.warehouse_stock drow.id item.quantity
                false none now
              let ph := updateStockRows s1.pharmacy_stock drow.id item.quantity
                false none now
              let tx : TransactionRecord :=
                { drug_id := drow.id, drug_code := item.drug_code.getD "",
                  transaction_type := "box_return",
                  quantity_change := item.quantity,
                  source := "box_" ++ toString box_id, destination := "warehouse",
                  note := "returned from box on item delete",
                  created_by := actor_id }
              (.success, { s1 with
                warehouse_stock := wh, pharmacy_stock := ph,
                drug_transactions := s1.drug_transactions ++ [tx] })
          else (.success, s1)
        else (.success, s1)

/-- The tenant claim vocabulary of the specification (§4.1). -/
inductive TenantClaim where
  | administrator
  | scoped (tenant : String)
  | noClaim
deriving Repr, DecidableEq

/-- Specification-side resolution function, written from the claim's words
(admin flag wins, otherwise the first non-empty tenant claim in the order
Doctor, CollegeAdmin, HeadOfDepartment, otherwise no claim), to be compared
with `get_user_college`. -/
def resolveTenantSpec (u : User) : TenantClaim :=
  if u.is_admin then .administrator
  else if u.is_doc && strTruthy u.doctor_college then
    .scoped (u.doctor_college.getD "")
  else if u.is_college_admin && strTruthy u.college_admin_college then
    .scoped (u.college_admin_college.getD "")
  else if u.is_hod && strTruthy u.hod_college then
    .scoped (u.hod_college.getD "")
  else .noClaim

/-- The college value a tenant claim carries (administrators and claimless
users both carry none, as in the source's `Optional[str]` representation). -/
def claimTenant : TenantClaim → Option String
  | .administrator => none
  | .scoped t => some t
  | .noClaim => none

/-- The ledger components (both balance tables and the audit log) agree
between two states. -/
def sameLedger (s s' : DBState) : Prop :=
  s'.warehouse_stock = s.warehouse_stock ∧
  s'.pharmacy_stock = s.pharmacy_stock ∧
  s'.drug_transactions = s.drug_transactions

/-- Sample doctor assigned to the `eng` college. -/
def engDoctor : User :=
  { id := 7, is_admin := false, is_doc := true, doctor_college := some "eng",
    is_college_admin := false, college_admin_college := none,
    is_hod := false, hod_college := none }

/-- Sample doctor assigned to the `sci` college. -/
def sciDoctor : User :=
  { id := 8, is_admin := false, is_doc := true, doctor_college := some "sci",
    is_college_admin := false, college_admin_college := none,
    is_hod := false, hod_college := none }

/-- Sample administrator. -/
def adminUser : User :=
  { id := 1, is_admin := true, is_doc := false, doctor_college := none,
    is_college_admin := false, college_admin_college := none,
    is_hod := false, hod_college := none }

/-- Sample doctor with the doctor flag set but no college assigned. -/
def collegelessDoctor : User :=
  { id := 9, is_admin := false, is_doc := true, doctor_college := none,
    is_college_admin := false, college_admin_college := none,
    is_hod := false, hod_college := none }

/-- Sample box owned by the `eng` college. -/
def sampleBox : FirstAidBox :=
  { id := 1, box_name := "B1", location := "hall", college_id := some "eng",
    created_by_user_id := 7, last_reviewed_at := none }

/-- Sample database state: one drug `D1`, warehouse balance 50, pharmacy
balance 40, one box owned by `eng`, no items, no audit records. -/
def sampleState : DBState :=
  { drugs := [⟨10, "D1"⟩],
    warehouse_stock := [⟨10, 50, some "eng", none⟩],
    pharmacy_stock := [⟨10, 40, some "eng", none⟩],
    drug_transactions := [],
    boxes := [sampleBox],
    box_items := [] }

/-- Sample state with an empty warehouse table and an empty pharmacy table. -/
def emptyStockState : DBState :=
  { drugs := [⟨10, "D1"⟩],
    warehouse_stock := [],
    pharmacy_stock := [],
    drug_transactions := [],
    boxes := [sampleBox],
    box_items := [] }

/-- Sample state holding one uncoded item in the sample box. -/
def uncodedItemState : DBState :=
  { drugs := [⟨10, "D1"⟩],
    warehouse_stock := [⟨10, 50, some "eng", none⟩],
    pharmacy_stock := [⟨10, 40, some "eng", none⟩],
    drug_transactions := [],
    boxes := [sampleBox],
    box_items := [{ id := 5, box_id := 1, college_id := "eng",
                    drug_name := "Bandage", drug_code := none, quantity := 3,
                    unit := "pcs", expiry_date := none, notes := none }] }

/-- A truthy optional string is `some` of its `getD ""` value. -/
theorem strTruthy_eq_some (o : Option String) (h : strTruthy o = true) :
    o = some (o.getD "") := by
  cases o with
  | none => simp [strTruthy] at h
  | some s => rfl

/-- Searching an appended list when the first part has no match. -/
theorem find?_append_of_none {α : Type} (p : α → Bool) (l l' : List α)
    (h : l.find? p = none) : (l ++ l').find? p = l'.find? p := by
  induction l with
  | nil => rfl
  | cons a t ih =>
    cases hpa : p a with
    | true => rw [List.find?_cons_of_pos _ hpa] at h; cases h
    | false =>
      rw [List.find?_cons_of_neg _ (by simp [hpa])] at h
      rw [List.cons_append, List.find?_cons_of_neg _ (by simp [hpa])]
      exact ih h

/-- A missing balance row reads as balance zero. -/
theorem balanceOf_of_not_hasRow (rows : List StockRow) (did : Nat)
    (h : hasRow rows did = false) : balanceOf rows did = 0 := by
  unfold hasRow at h
  unfold balanceOf
  cases hf : rows.find? (fun r => r.drug_id == did) with
  | none => rfl
  | some r => rw [hf] at h; cases h

/-- The balance update leaves row existence unchanged. -/
theorem hasRow_updateStockRows (rows : List StockRow) (did : Nat) (delta : Int)
    (sc : Bool) (college : Option String) (now : Nat) :
    hasRow (updateStockRows rows did delta sc college now) did = hasRow rows did := by
  induction rows with
  | nil => rfl
  | cons r t ih =>
    cases hr : (r.drug_id == did) with
    | true =>
      simp only [updateStockRows, List.map_cons, hasRow, List.find?_cons] at *
      simp [hr]
    | false =>
      simp only [updateStockRows, List.map_cons, hasRow, List.find?_cons] at *
      simpa [hr] using ih

/-- The balance update adds the delta to an existing row's recorded balance. -/
theorem balanceOf_updateStockRows (rows : List StockRow) (did : Nat) (delta : Int)
    (sc : Bool) (college : Option String) (now : Nat) (h : hasRow rows did = true) :
    balanceOf (updateStockRows rows did delta sc college now) did =
      balanceOf rows did + delta := by
  induction rows with
  | nil => cases h
  | cons r t ih =>
    cases hr : (r.drug_id == did) with
    | true =>
      simp only [updateStockRows, List.map_cons, balanceOf, List.find?_cons]
      simp [hr]
    | false =>
      have ht : hasRow t did = true := by
        unfold hasRow at h ⊢
        rw [List.find?_cons] at h
        simpa [hr] using h
      have hrec := ih ht
      simp only [updateStockRows, List.map_cons, balanceOf, List.find?_cons] at hrec ⊢
      simpa [hr] using hrec

/-- After the update-or-insert step a row always exists. -/
theorem hasRow_upsertStock (rows : List StockRow) (did : Nat) (delta : Int)
    (college : Option String) (now : Nat) :
    hasRow (upsertStock rows did delta college now) did = true := by
  unfold upsertStock
  cases hh : hasRow rows did with
  | true => rw [if_pos rfl, hasRow_updateStockRows]; exact hh
  | false =>
    rw [if_neg (by simp)]
    have hf : rows.find? (fun r => r.drug_id == did) = none := by
      unfold hasRow at hh
      cases hx : rows.find? (fun r => r.drug_id == did) with
      | none => rfl
      | some r => rw [hx] at hh; cases hh
    unfold hasRow
    rw [find?_append_of_none _ _ _ hf, List.find?_cons]
    simp

/-- The update-or-insert step adds the delta to the recorded balance, whether
or not a row existed before. -/
theorem balanceOf_upsertStock (rows : List StockRow) (did : Nat) (delta : Int)
    (college : Option String) (now : Nat) :
    balanceOf (upsertStock rows did delta college now) did =
      balanceOf rows did + delta := by
  unfold upsertStock
  cases hh : hasRow rows did with
  | true => rw [if_pos rfl]; exact balanceOf_updateStockRows _ _ _ _ _ _ hh
  | false =>
    rw [if_neg (by simp), balanceOf_of_not_hasRow _ _ hh]
    have hf : rows.find? (fun r => r.drug_id == did) = none := by
      unfold hasRow at hh
      cases hx : rows.find? (fun r => r.drug_id == did) with
      | none => rfl
      | some r => rw [hx] at hh; cases hh
    unfold balanceOf
    rw [find?_append_of_none _ _ _ hf, List.find?_cons]
    simp

/-- Inserting into a table with no row for the drug puts the seeded row at
the position the next lookup finds. -/
theorem find?_upsertStock_fresh (rows : List StockRow) (did : Nat) (delta : Int)
    (college : Option String) (now : Nat) (h : hasRow rows did = false) :
    (upsertStock rows did delta college now).find? (fun r => r.drug_id == did) =
      some { drug_id := did, balance_qty := delta, college := college,
             last_updated := none } := by
  unfold upsertStock
  rw [if_neg (by simp [h])]
  have hf : rows.find? (fun r => r.drug_id == did) = none := by
    unfold hasRow at h
    cases hx : rows.find? (fun r => r.drug_id == did) with
    | none => rfl
    | some r => rw [hx] at h; cases h
  rw [find?_append_of_none _ _ _ hf, List.find?_cons]
  simp

/-- Unfolding of `get_user_college` at a present user. -/
theorem get_user_college_some (u : User) :
    get_user_college (some u) =
      if u.is_admin then none
      else if u.is_doc && strTruthy u.doctor_college then u.doctor_college
      else if u.is_college_admin && strTruthy u.college_admin_college then
        u.college_admin_college
      else if u.is_hod && strTruthy u.hod_college then u.hod_college
      else none := rfl

/-- A user whose resolved college normalizes differently from the target is
rejected by `validate_college_assignment`. -/
theorem validate_false_of_cross (u : User) (t1 t2 : String)
    (hclaim : get_user_college (some u) = some t2)
    (hne : pyNorm t2 ≠ pyNorm t1) :
    (validate_college_assignment (some u) (some t1)).1 = false := by
  have hadmin : u.is_admin = false := by
    cases hA : u.is_admin with
    | false => rfl
    | true =>
      rw [get_user_college_some, if_pos (by simp [hA])] at hclaim
      cases hclaim
  rw [get_user_college_some, if_neg (by simp [hadmin])] at hclaim
  unfold validate_college_assignment
  by_cases ht1 : strTruthy (some t1) = true
  · simp only [ht1, Bool.not_true, Bool.false_eq_true, if_false, hadmin,
      Option.getD_some]
    cases hdoc : u.is_doc with
    | true =>
      simp only [if_true]
      cases hdc : strTruthy u.doctor_college with
      | true =>
        rw [hdoc, hdc] at hclaim
        simp only [Bool.and_self, if_true] at hclaim
        rw [hclaim] at hdc ⊢
        simp [hdc, hne]
      | false => simp [hdc]
    | false =>
      simp only [Bool.false_eq_true, if_false]
      rw [hdoc] at hclaim
      simp only [Bool.false_and, Bool.false_eq_true, if_false] at hclaim
      cases hca : u.is_college_admin with
      | true =>
        simp only [if_true]
        cases hcc : strTruthy u.college_admin_college with
        | true =>
          rw [hca, hcc] at hclaim
          simp only [Bool.and_self, if_true] at hclaim
          rw [hclaim] at hcc ⊢
          simp [hcc, hne]
        | false => simp [hcc]
      | false =>
        simp only [Bool.false_eq_true, if_false]
        rw [hca] at hclaim
        simp only [Bool.false_and, Bool.false_eq_true, if_false] at hclaim
        cases hhod : u.is_hod with
        | true =>
          simp only [if_true]
          cases hhc : strTruthy u.hod_college with
          | true =>
            rw [hhod, hhc] at hclaim
            simp only [Bool.and_self, if_true] at hclaim
            rw [hclaim] at hhc ⊢
            simp [hhc, hne]
          | false => simp [hhc]
        | false =>
          rw [hhod] at hclaim
          simp at hclaim
  · simp only [Bool.not_eq_true] at ht1
    simp [ht1]

/-- The success path of `add_item` for a coded drug that resolves in the
`drugs` table, with all guards passing and the ledger writes succeeding. -/
theorem add_item_coded_success (s : DBState) (bid : Nat) (u : User)
    (aid : Nat) (dn code : String) (q : Int) (unitStr : String)
    (exp : Option Nat) (notes : Option String) (avail : Option Int)
    (nid : Nat) (now : Nat) (uc : String) (box : FirstAidBox) (drow : DrugRow)
    (huc : get_user_college (some u) = some uc)
    (hbox : s.boxes.find? (fun b => b.id == bid) = some box)
    (hguard : boxGuard (some u) box = .ok ())
    (hcode : code ≠ "")
    (hblock : precheckBlocked (some code) avail q = false)
    (hdrug : s.drugs.find? (fun d => d.drug_code == code) = some drow) :
    add_item s bid (some u) aid dn (some code) q unitStr exp notes avail nid true now =
      (.success,
        { s with
          box_items := s.box_items ++
            [{ id := nid, box_id := bid, college_id := uc, drug_name := dn,
               drug_code := some code, quantity := q, unit := unitStr,
               expiry_date := exp, notes := notes }],
          warehouse_stock := upsertStock s.warehouse_stock drow.id (-q) (some uc) now,
          pharmacy_stock := upsertStock s.pharmacy_stock drow.id (-q) (some uc) now,
          drug_transactions := s.drug_transactions ++
            [{ drug_id := drow.id, drug_code := code,
               transaction_type := "warehouse_to_box", quantity_change := -q,
               source := "warehouse", destination := "box_" ++ toString bid,
               note := "added to box", created_by := aid }] }) := by
  have hst : strTruthy (some code) = true := by simp [strTruthy, hcode]
  simp only [add_item, huc, hbox, hguard, hblock, hst, Option.getD_some, hdrug,
    Bool.false_eq_true, if_false, if_true]

/-- The success path of `delete_item` for an item carrying a drug code that
resolves in the `drugs` table, with all guards passing and the ledger writes
succeeding. -/
theorem delete_item_coded_success (s : DBState) (bid iid : Nat) (u : User)
    (aid : Nat) (now : Nat) (box : FirstAidBox) (item : FirstAidBoxItem)
    (drow : DrugRow) (code : String)
    (hbox : s.boxes.find? (fun b => b.id == bid) = some box)
    (hguard : boxGuard (some u) box = .ok ())
    (hitem : s.box_items.find? (fun it => it.id == iid && it.box_id == bid) = some item)
    (hic : item.drug_code = some code) (hcode : code ≠ "")
    (hdrug : s.drugs.find? (fun d => d.drug_code == code) = some drow) :
    delete_item s bid iid (some u) aid true now =
      (.success,
        { s with
          box_items := s.box_items.filter (fun it => !(it.id == iid && it.box_id == bid)),
          warehouse_stock := updateStockRows s.warehouse_stock drow.id item.quantity
            false none now,
          pharmacy_stock := updateStockRows s.pharmacy_stock drow.id item.quantity
            false none now,
          drug_transactions := s.drug_transactions ++
            [{ drug_id := drow.id, drug_code := code,
               transaction_type := "box_return", quantity_change := item.quantity,
               source := "box_" ++ toString bid, destination := "warehouse",
               note := "returned from box on item delete", created_by := aid }] }) := by
  have hst : strTruthy (some code) = true := by simp [strTruthy, hcode]
  simp only [delete_item, hbox, hguard, hitem, hst, hic, Option.getD_some, hdrug, if_true]

/-- C1: tenant isolation of box reads. A `FirstAidBox` whose owning tenant is
`t1` is never returned by the `box_detail` view to an actor whose resolved
claim is the distinct tenant `t2` (distinct after the source's
strip-and-lowercase normalization); the call is rejected with HTTP 403
(cross-tenant access) instead. -/
theorem box_read_tenant_isolation (s : DBState) (bid : Nat) (u : User)
    (t1 t2 : String) (now : Nat) (box : FirstAidBox)
    (hbox : s.boxes.find? (fun b => b.id == bid) = some box)
    (hown : box.college_id = some t1) (ht1 : t1 ≠ "")
    (hclaim : get_user_college (some u) = some t2)
    (hne : pyNorm t1 ≠ pyNorm t2) :
    ∃ msg, box_detail s bid (some u) now = .error ⟨403, msg⟩ := by
  have hval : (validate_college_assignment (some u) (some t1)).1 = false :=
    validate_false_of_cross u t1 t2 hclaim hne.symm
  have htt : strTruthy (some t1) = true := by simp [strTruthy, ht1]
  refine ⟨(validate_college_assignment (some u) (some t1)).2, ?_⟩
  have hguard : boxGuard (some u) box =
      .error ⟨403, (validate_college_assignment (some u) (some t1)).2⟩ := by
    simp only [boxGuard, hown, htt, if_true, prevent_cross_college_access,
      Bool.not_true, Bool.false_eq_true, if_false, hval]
  simp only [box_detail, hbox, hguard]

/-- C1 witness: the `sci` doctor asking for the `eng` box is rejected 403. -/
theorem box_read_tenant_isolation_witness :
    ∃ msg, box_detail sampleState 1 (some sciDoctor) 5 = .error ⟨403, msg⟩ :=
  box_read_tenant_isolation sampleState 1 sciDoctor "eng" "sci" 5 sampleBox
    (by rfl) (by rfl) (by decide) (by rfl) (by decide)

/-- C7 counterexample: for an administrator (Global claim) and an unset
resource tenant, the explicit access checks do not allow: the boolean check
denies and the guard raises HTTP 400, contradicting the claim that a Global
claim is always allowed including when the resource tenant is unset. -/
theorem global_claim_unset_tenant_cex :
    verify_college_access (some adminUser) none = false ∧
    prevent_cross_college_access (some adminUser) none =
      .error ⟨400, "College not specified"⟩ :=
  ⟨rfl, rfl⟩

/-- C7 (amended): a Global (administrator) claim is allowed whenever the
resource declares a non-empty tenant; when the tenant is unset or empty the
checks reject even for administrators. -/
theorem global_claim_allowed_on_set_tenant (u : User) (c : String)
    (hadmin : u.is_admin = true) (hc : c ≠ "") :
    verify_college_access (some u) (some c) = true ∧
    prevent_cross_college_access (some u) (some c) = .ok () := by
  have htt : strTruthy (some c) = true := by simp [strTruthy, hc]
  constructor
  · simp [verify_college_access, hc, hadmin]
  · have hv : validate_college_assignment (some u) (some c) =
        (true, "Admin has full access to all colleges") := by
      simp [validate_college_assignment, htt, hadmin]
    simp [prevent_cross_college_access, htt, hv]

/-- C7 amended-claim witness at a concrete administrator and tenant. -/
theorem global_claim_allowed_on_set_tenant_witness :
    verify_college_access (some adminUser) (some "eng") = true ∧
    prevent_cross_college_access (some adminUser) (some "eng") = .ok () :=
  global_claim_allowed_on_set_tenant adminUser "eng" rfl (by decide)

/-- C8: tenant resolution is total with the fixed priority Administrator,
then Doctor, then CollegeAdmin, then HeadOfDepartment, first non-empty claim
wins, otherwise no claim; absence is a representable result (the function is
total), and resolving twice on the same user yields the same claim. -/
theorem resolve_tenant_total_priority (u : User) :
    get_user_college (some u) = claimTenant (resolveTenantSpec u) ∧
    (u.is_admin = true → resolveTenantSpec u = .administrator) ∧
    get_user_college (some u) = get_user_college (some u) := by
  refine ⟨?_, fun ha => by simp [resolveTenantSpec, ha], rfl⟩
  unfold resolveTenantSpec claimTenant
  rw [get_user_college_some]
  by_cases ha : u.is_admin = true
  · simp [ha]
  · simp only [Bool.not_eq_true] at ha
    simp only [ha, Bool.false_eq_true, if_false]
    cases hd : (u.is_doc && strTruthy u.doctor_college) with
    | true =>
      have h2 : strTruthy u.doctor_college = true := (Bool.and_eq_true _ _ |>.mp hd).2
      simpa using strTruthy_eq_some _ h2
    | false =>
      simp only [Bool.false_eq_true, if_false]
      cases hc : (u.is_college_admin && strTruthy u.college_admin_college) with
      | true =>
        have h2 : strTruthy u.college_admin_college = true :=
          (Bool.and_eq_true _ _ |>.mp hc).2
        simpa using strTruthy_eq_some _ h2
      | false =>
        simp only [Bool.false_eq_true, if_false]
        cases hh : (u.is_hod && strTruthy u.hod_college) with
        | true =>
          have h2 : strTruthy u.hod_college = true := (Bool.and_eq_true _ _ |>.mp hh).2
          simpa using strTruthy_eq_some _ h2
        | false => simp

/-- C8 witness: at a concrete administrator the admin-priority implication is
discharged. -/
theorem resolve_tenant_total_priority_witness :
    resolveTenantSpec adminUser = .administrator :=
  (resolve_tenant_total_priority adminUser).2.1 rfl

/-- C10: an authenticated non-administrator user whose resolved tenant claim
is none (for example a doctor with no college assigned) gets the query back
unchanged from `filter_by_college`, so `boxes_list` returns every tenant's
boxes to that user rather than an empty set. -/
theorem unassigned_claim_sees_all_boxes (s : DBState) (u : User)
    (hadmin : u.is_admin = false)
    (hnone : get_user_college (some u) = none) :
    filter_by_college s.boxes (some u) = s.boxes ∧
    boxes_list s (some u) = s.boxes := by
  have h1 : filter_by_college s.boxes (some u) = s.boxes := by
    simp [filter_by_college, hadmin, hnone]
  exact ⟨h1, h1⟩

/-- C10 witness: the collegeless doctor sees the whole box list. -/
theorem unassigned_claim_sees_all_boxes_witness :
    filter_by_college sampleState.boxes (some collegelessDoctor) = sampleState.boxes ∧
    boxes_list sampleState (some collegelessDoctor) = sampleState.boxes :=
  unassigned_claim_sees_all_boxes sampleState collegelessDoctor rfl rfl

/-- C3: movement effect of adding a coded item. With the tenant and box
guards passing, the code resolving in the catalog and the ledger writes
succeeding, the warehouse and pharmacy balances for the drug each decrease by
exactly `q`, and exactly one `warehouse_to_box` transaction record with
`quantity_change = -q` is appended. -/
theorem add_item_movement_effect (s : DBState) (bid : Nat) (u : User)
    (aid : Nat) (dn code : String) (q : Int) (unitStr : String)
    (exp : Option Nat) (notes : Option String) (avail : Option Int)
    (nid : Nat) (now : Nat) (uc : String) (box : FirstAidBox) (drow : DrugRow)
    (huc : get_user_college (some u) = some uc)
    (hbox : s.boxes.find? (fun b => b.id == bid) = some box)
    (hguard : boxGuard (some u) box = .ok ())
    (hcode : code ≠ "")
    (hblock : precheckBlocked (some code) avail q = false)
    (hdrug : s.drugs.find? (fun d => d.drug_code == code) = some drow) :
    ∃ s1 tx,
      add_item s bid (some u) aid dn (some code) q unitStr exp notes avail nid
        true now = (.success, s1) ∧
      balanceOf s1.warehouse_stock drow.id = balanceOf s.warehouse_stock drow.id - q ∧
      balanceOf s1.pharmacy_stock drow.id = balanceOf s.pharmacy_stock drow.id - q ∧
      s1.drug_transactions = s.drug_transactions ++ [tx] ∧
      tx.transaction_type = "warehouse_to_box" ∧ tx.quantity_change = -q := by
  refine ⟨_, _,
    add_item_coded_success s bid u aid dn code q unitStr exp notes avail nid now
      uc box drow huc hbox hguard hcode hblock hdrug, ?_, ?_, rfl, rfl, rfl⟩
  · rw [sub_eq_add_neg]
    exact balanceOf_upsertStock s.warehouse_stock drow.id (-q) (some uc) now
  · rw [sub_eq_add_neg]
    exact balanceOf_upsertStock s.pharmacy_stock drow.id (-q) (some uc) now

/-- C3 witness: adding ten units of drug `D1` to the sample box. -/
theorem add_item_movement_effect_witness :
    ∃ s1 tx,
      add_item sampleState 1 (some engDoctor) 7 "Panadol" (some "D1") 10 "pcs"
        none none none 100 true 5 = (.success, s1) ∧
      balanceOf s1.warehouse_stock 10 = balanceOf sampleState.warehouse_stock 10 - 10 ∧
      balanceOf s1.pharmacy_stock 10 = balanceOf sampleState.pharmacy_stock 10 - 10 ∧
      s1.drug_transactions = sampleState.drug_transactions ++ [tx] ∧
      tx.transaction_type = "warehouse_to_box" ∧ tx.quantity_change = -10 :=
  add_item_movement_effect sampleState 1 engDoctor 7 "Panadol" "D1" 10 "pcs"
    none none none 100 5 "eng" sampleBox ⟨10, "D1"⟩ rfl rfl rfl (by decide) rfl rfl

/-- C2: round-trip reversal. Adding a coded, catalog-resolving item and then
removing the created item restores both the warehouse and the pharmacy
balance for that drug to their pre-add values, and leaves exactly two
transaction records for the pair of operations — one `warehouse_to_box`, one
`box_return` — whose quantity changes sum to zero and whose source and
destination labels are swapped. -/
theorem add_then_delete_round_trip (s : DBState) (bid : Nat) (u : User)
    (aid : Nat) (dn code : String) (q : Int) (unitStr : String)
    (exp : Option Nat) (notes : Option String) (avail : Option Int)
    (nid : Nat) (now now2 : Nat) (uc : String) (box : FirstAidBox) (drow : DrugRow)
    (huc : get_user_college (some u) = some uc)
    (hbox : s.boxes.find? (fun b => b.id == bid) = some box)
    (hguard : boxGuard (some u) box = .ok ())
    (hcode : code ≠ "")
    (hblock : precheckBlocked (some code) avail q = false)
    (hdrug : s.drugs.find? (fun d => d.drug_code == code) = some drow)
    (hfresh : s.box_items.find? (fun it => it.id == nid && it.box_id == bid) = none) :
    ∃ s1 s2 t1 t2,
      add_item s bid (some u) aid dn (some code) q unitStr exp notes avail nid
        true now = (.success, s1) ∧
      delete_item s1 bid nid (some u) aid true now2 = (.success, s2) ∧
      balanceOf s2.warehouse_stock drow.id = balanceOf s.warehouse_stock drow.id ∧
      balanceOf s2.pharmacy_stock drow.id = balanceOf s.pharmacy_stock drow.id ∧
      s2.drug_transactions = s.drug_transactions ++ [t1, t2] ∧
      t1.transaction_type = "warehouse_to_box" ∧
      t2.transaction_type = "box_return" ∧
      t1.quantity_change + t2.quantity_change = 0 ∧
      t1.source = t2.destination ∧ t1.destination = t2.source := by
  have hadd := add_item_coded_success s bid u aid dn code q unitStr exp notes
    avail nid now uc box drow huc hbox hguard hcode hblock hdrug
  have hitem : (s.box_items ++
      [({ id := nid, box_id := bid, college_id := uc, drug_name := dn,
          drug_code := some code, quantity := q, unit := unitStr,
          expiry_date := exp, notes := notes } : FirstAidBoxItem)]).find?
        (fun it => it.id == nid && it.box_id == bid) =
      some { id := nid, box_id := bid, college_id := uc, drug_name := dn,
             drug_code := some code, quantity := q, unit := unitStr,
             expiry_date := exp, notes := notes } := by
    rw [find?_append_of_none _ _ _ hfresh, List.find?_cons]
    simp
  refine ⟨_, _,
    { drug_id := drow.id, drug_code := code,
      transaction_type := "warehouse_to_box", quantity_change := -q,
      source := "warehouse", destination := "box_" ++ toString bid,
      note := "added to box", created_by := aid },
    { drug_id := drow.id, drug_code := code,
      transaction_type := "box_return", quantity_change := q,
      source := "box_" ++ toString bid, destination := "warehouse",
      note := "returned from box on item delete", created_by := aid },
    hadd,
    delete_item_coded_success _ bid nid u aid now2 box _ drow code hbox hguard
      hitem rfl hcode hdrug, ?_, ?_, ?_, rfl, rfl, ?_, rfl, rfl⟩
  · show balanceOf (updateStockRows
        (upsertStock s.warehouse_stock drow.id (-q) (some uc) now) drow.id q
        false none now2) drow.id = balanceOf s.warehouse_stock drow.id
    rw [balanceOf_updateStockRows _ _ _ _ _ _
        (hasRow_upsertStock s.warehouse_stock drow.id (-q) (some uc) now),
      balanceOf_upsertStock]
    omega
  · show balanceOf (updateStockRows
        (upsertStock s.pharmacy_stock drow.id (-q) (some uc) now) drow.id q
        false none now2) drow.id = balanceOf s.pharmacy_stock drow.id
    rw [balanceOf_updateStockRows _ _ _ _ _ _
        (hasRow_upsertStock s.pharmacy_stock drow.id (-q) (some uc) now),
      balanceOf_upsertStock]
    omega
  · rw [List.append_assoc]
    rfl
  · show -q + q = 0
    omega

/-- C2 witness: adding then removing ten units of `D1` on the sample state. -/
theorem add_then_delete_round_trip_witness :
    ∃ s1 s2 t1 t2,
      add_item sampleState 1 (some engDoctor) 7 "Panadol" (some "D1") 10 "pcs"
        none none none 100 true 5 = (.success, s1) ∧
      delete_item s1 1 100 (some engDoctor) 7 true 6 = (.success, s2) ∧
      balanceOf s2.warehouse_stock 10 = balanceOf sampleState.warehouse_stock 10 ∧
      balanceOf s2.pharmacy_stock 10 = balanceOf sampleState.pharmacy_stock 10 ∧
      s2.drug_transactions = sampleState.drug_transactions ++ [t1, t2] ∧
      t1.transaction_type = "warehouse_to_box" ∧
      t2.transaction_type = "box_return" ∧
      t1.quantity_change + t2.quantity_change = 0 ∧
      t1.source = t2.destination ∧ t1.destination = t2.source :=
  add_then_delete_round_trip sampleState 1 engDoctor 7 "Panadol" "D1" 10 "pcs"
    none none none 100 5 6 "eng" sampleBox ⟨10, "D1"⟩ rfl rfl rfl (by decide)
    rfl rfl rfl

/-- C6: lazy balance-row creation. When the ledger step of `add_item`
references a drug with no balance row in the warehouse or pharmacy table, it
creates a row seeded with the signed delta itself, so a decrement of `q`
produces a starting balance of `-q` instead of rejecting a negative result. -/
theorem lazy_balance_row_creation (s : DBState) (bid : Nat) (u : User)
    (aid : Nat) (dn code : String) (q : Int) (unitStr : String)
    (exp : Option Nat) (notes : Option String) (avail : Option Int)
    (nid : Nat) (now : Nat) (uc : String) (box : FirstAidBox) (drow : DrugRow)
    (huc : get_user_college (some u) = some uc)
    (hbox : s.boxes.find? (fun b => b.id == bid) = some box)
    (hguard : boxGuard (some u) box = .ok ())
    (hcode : code ≠ "")
    (hblock : precheckBlocked (some code) avail q = false)
    (hdrug : s.drugs.find? (fun d => d.drug_code == code) = some drow)
    (hw : hasRow s.warehouse_stock drow.id = false)
    (hp : hasRow s.pharmacy_stock drow.id = false) :
    ∃ s1,
      add_item s bid (some u) aid dn (some code) q unitStr exp notes avail nid
        true now = (.success, s1) ∧
      s1.warehouse_stock.find? (fun r => r.drug_id == drow.id) =
        some { drug_id := drow.id, balance_qty := -q, college := some uc,
               last_updated := none } ∧
      s1.pharmacy_stock.find? (fun r => r.drug_id == drow.id) =
        some { drug_id := drow.id, balance_qty := -q, college := some uc,
               last_updated := none } := by
  refine ⟨_,
    add_item_coded_success s bid u aid dn code q unitStr exp notes avail nid now
      uc box drow huc hbox hguard hcode hblock hdrug, ?_, ?_⟩
  · exact find?_upsertStock_fresh s.warehouse_stock drow.id (-q) (some uc) now hw
  · exact find?_upsertStock_fresh s.pharmacy_stock drow.id (-q) (some uc) now hp

/-- C6 witness: adding three units of `D1` when neither stock table has a
row seeds both rows at `-3`. -/
theorem lazy_balance_row_creation_witness :
    ∃ s1,
      add_item emptyStockState 1 (some engDoctor) 7 "Panadol" (some "D1") 3
        "pcs" none none none 100 true 5 = (.success, s1) ∧
      s1.warehouse_stock.find? (fun r => r.drug_id == 10) =
        some { drug_id := 10, balance_qty := -3, college := some "eng",
               last_updated := none } ∧
      s1.pharmacy_stock.find? (fun r => r.drug_id == 10) =
        some { drug_id := 10, balance_qty := -3, college := some "eng",
               last_updated := none } :=
  lazy_balance_row_creation emptyStockState 1 engDoctor 7 "Panadol" "D1" 3
    "pcs" none none none 100 5 "eng" sampleBox ⟨10, "D1"⟩ rfl rfl rfl
    (by decide) rfl rfl rfl rfl

/-- C4 counterexample: a coded `add_item` call requesting 100 units when the
stock lookup reports 40 available (the sample pharmacy balance) does not
succeed and creates no item — the state is returned unchanged — refuting the
claim that the pre-check is advisory and the operation still succeeds. -/
theorem insufficient_stock_precheck_cex :
    (add_item sampleState 1 (some engDoctor) 7 "Panadol" (some "D1") 100 "pcs"
        none none (some 40) 100 true 5).1 ≠ AddItemResult.success ∧
    (add_item sampleState 1 (some engDoctor) 7 "Panadol" (some "D1") 100 "pcs"
        none none (some 40) 100 true 5).2 = sampleState := by
  have h : add_item sampleState 1 (some engDoctor) 7 "Panadol" (some "D1") 100
      "pcs" none none (some 40) 100 true 5 =
      (.formError "requested quantity exceeds available stock", sampleState) := by
    rfl
  rw [h]
  exact ⟨by simp, rfl⟩

/-- C4 (amended): the insufficient-stock pre-check is enforced, not advisory.
When the external stock lookup returns an available quantity and the
requested quantity exceeds it, the call is rejected with an error redirect
back to the form and no `BoxItem` or ledger write occurs (the state is
unchanged); when the lookup yields no data, the check does not constrain the
operation. -/
theorem add_item_precheck_blocks (s : DBState) (bid : Nat) (u : User)
    (aid : Nat) (dn code : String) (q : Int) (unitStr : String)
    (exp : Option Nat) (notes : Option String) (avail : Int)
    (nid : Nat) (lok : Bool) (now : Nat) (uc : String) (box : FirstAidBox)
    (huc : get_user_college (some u) = some uc)
    (hbox : s.boxes.find? (fun b => b.id == bid) = some box)
    (hguard : boxGuard (some u) box = .ok ())
    (hcode : code ≠ "")
    (hgt : q > avail) :
    add_item s bid (some u) aid dn (some code) q unitStr exp notes (some avail)
      nid lok now = (.formError "requested quantity exceeds available stock", s) := by
  have hb : precheckBlocked (some code) (some avail) q = true := by
    simp [precheckBlocked, strTruthy, hcode, hgt]
  simp only [add_item, huc, hbox, hguard, hb, if_true]

/-- C4 amended-claim witness at the concrete blocked call. -/
theorem add_item_precheck_blocks_witness :
    add_item sampleState 1 (some engDoctor) 7 "Panadol" (some "D1") 100 "pcs"
      none none (some 40) 100 true 5 =
      (.formError "requested quantity exceeds available stock", sampleState) :=
  add_item_precheck_blocks sampleState 1 engDoctor 7 "Panadol" "D1" 100 "pcs"
    none none 40 100 true 5 "eng" sampleBox rfl rfl rfl (by decide) (by decide)

/-- C5 counterexample: an `add_item` call whose drug code `ZZ` resolves to no
catalog row is still rejected by the stock pre-check when the external stock
lookup reports 0 available, so the box-level operation does not succeed and
no item is recorded — refuting the unconditional claim that for unresolved
codes the ledger is skipped and the operation still succeeds. -/
theorem best_effort_skip_cex :
    (add_item sampleState 1 (some engDoctor) 7 "Mystery" (some "ZZ") 1 "pcs"
        none none (some 0) 100 true 5).1 ≠ AddItemResult.success ∧
    (add_item sampleState 1 (some engDoctor) 7 "Mystery" (some "ZZ") 1 "pcs"
        none none (some 0) 100 true 5).2 = sampleState := by
  have h : add_item sampleState 1 (some engDoctor) 7 "Mystery" (some "ZZ") 1
      "pcs" none none (some 0) 100 true 5 =
      (.formError "requested quantity exceeds available stock", sampleState) := by
    rfl
  rw [h]
  exact ⟨by simp, rfl⟩

/-- C5 (amended): best-effort ledger policy, provided the advisory stock
pre-check does not reject the request. (a) When the drug code is absent or
does not resolve to a catalog row, the balance updates and the
transaction-record append are skipped entirely and the box-level operation
still succeeds; (b) when the ledger writes fail (storage error), the failure
is swallowed and the operation still succeeds, with the box-item mutation
already committed. This holds for both `add_item` and `delete_item` (the
pre-check proviso concerns only `add_item`). -/
theorem best_effort_ledger_policy (s : DBState) (bid : Nat) (u : User)
    (aid : Nat) (dn : String) (dc : Option String) (q : Int) (unitStr : String)
    (exp : Option Nat) (notes : Option String) (avail : Option Int)
    (nid iid : Nat) (lok : Bool) (now : Nat) (uc : String) (box : FirstAidBox)
    (huc : get_user_college (some u) = some uc)
    (hbox : s.boxes.find? (fun b => b.id == bid) = some box)
    (hguard : boxGuard (some u) box = .ok ()) :
    ((precheckBlocked dc avail q = false) →
     (strTruthy dc = false ∨
      s.drugs.find? (fun d => d.drug_code == dc.getD "") = none ∨ lok = false) →
      ∃ s1, add_item s bid (some u) aid dn dc q unitStr exp notes avail nid
          lok now = (.success, s1) ∧
        sameLedger s s1 ∧
        s1.box_items = s.box_items ++
          [{ id := nid, box_id := bid, college_id := uc, drug_name := dn,
             drug_code := dc, quantity := q, unit := unitStr,
             expiry_date := exp, notes := notes }]) ∧
    (∀ item, s.box_items.find? (fun it => it.id == iid && it.box_id == bid) =
        some item →
     (strTruthy item.drug_code = false ∨
      s.drugs.find? (fun d => d.drug_code == item.drug_code.getD "") = none ∨
      lok = false) →
      ∃ s1, delete_item s bid iid (some u) aid lok now = (.success, s1) ∧
        sameLedger s s1 ∧
        s1.box_items =
          s.box_items.filter (fun it => !(it.id == iid && it.box_id == bid))) := by
  constructor
  · intro hnb hskip
    have hbase : add_item s bid (some u) aid dn dc q unitStr exp notes avail nid
        lok now = (.success, { s with box_items := s.box_items ++
          [{ id := nid, box_id := bid, college_id := uc, drug_name := dn,
             drug_code := dc, quantity := q, unit := unitStr,
             expiry_date := exp, notes := notes }] }) := by
      simp only [add_item, huc, hbox, hguard, hnb, Bool.false_eq_true, if_false]
      rcases hskip with hdc | hfind | hlok
      · simp [hdc]
      · cases hdc2 : strTruthy dc with
        | false => simp [hdc2]
        | true =>
          cases lok with
          | false => simp [hdc2]
          | true => simp [hdc2, hfind]
      · subst hlok
        cases hdc2 : strTruthy dc <;> simp [hdc2]
    exact ⟨_, hbase, ⟨rfl, rfl, rfl⟩, rfl⟩
  · intro item hitem hskip
    have hbase : delete_item s bid iid (some u) aid lok now =
        (.success, { s with box_items :=
          s.box_items.filter (fun it => !(it.id == iid && it.box_id == bid)) }) := by
      simp only [delete_item, hbox, hguard, hitem]
      rcases hskip with hdc | hfind | hlok
      · simp [hdc]
      · cases hdc2 : strTruthy item.drug_code with
        | false => simp [hdc2]
        | true =>
          cases lok with
          | false => simp [hdc2]
          | true => simp [hdc2, hfind]
      · subst hlok
        cases hdc2 : strTruthy item.drug_code <;> simp [hdc2]
    exact ⟨_, hbase, ⟨rfl, rfl, rfl⟩, rfl⟩

/-- C5 witness: an uncoded add with failing ledger writes and an uncoded
delete both succeed and leave the ledger untouched. -/
theorem best_effort_ledger_policy_witness :
    (∃ s1, add_item uncodedItemState 1 (some engDoctor) 7 "Gauze" none 2 "pcs"
        none none none 6 false 5 = (.success, s1) ∧
      sameLedger uncodedItemState s1 ∧
      s1.box_items = uncodedItemState.box_items ++
        [{ id := 6, box_id := 1, college_id := "eng", drug_name := "Gauze",
           drug_code := none, quantity := 2, unit := "pcs",
           expiry_date := none, notes := none }]) ∧
    (∃ s1, delete_item uncodedItemState 1 5 (some engDoctor) 7 false 5 =
        (.success, s1) ∧
      sameLedger uncodedItemState s1 ∧
      s1.box_items = uncodedItemState.box_items.filter
        (fun it => !(it.id == 5 && it.box_id == 1))) := by
  constructor
  · exact (best_effort_ledger_policy uncodedItemState 1 engDoctor 7 "Gauze"
      none 2 "pcs" none none none 6 5 false 5 "eng" sampleBox rfl rfl rfl).1
      rfl (Or.inl rfl)
  · exact (best_effort_ledger_policy uncodedItemState 1 engDoctor 7 "Gauze"
      none 2 "pcs" none none none 6 5 false 5 "eng" sampleBox rfl rfl rfl).2
      _ rfl (Or.inl rfl)

/-- C9 counterexample: the unauthenticated public box view performs no write
at all — the returned state is the input state and the box's
`last_reviewed_at` is still unset after the read — refuting the claim that
both the public view and the detail view update the freshness timestamp on
every read. -/
theorem public_view_no_write_cex :
    box_public_detail sampleState 1 = .ok (sampleBox, sampleState) ∧
    sampleBox.last_reviewed_at = none :=
  ⟨rfl, rfl⟩

/-- C9 (amended): only the tenant-scoped detail view performs the
write-on-read: every successful `box_detail` call sets the returned box's
`last_reviewed_at` to the current time and modifies no other field of the
state (only the matching box row's timestamp changes); the public box view
modifies nothing. -/
theorem detail_view_write_on_read (s : DBState) (bid : Nat)
    (user : Option User) (now : Nat) :
    (∀ b s', box_detail s bid user now = .ok (b, s') →
      b.last_reviewed_at = some now ∧
      s'.boxes = s.boxes.map (fun x =>
        if x.id == bid then { x with last_reviewed_at := some now } else x) ∧
      s'.drugs = s.drugs ∧ s'.warehouse_stock = s.warehouse_stock ∧
      s'.pharmacy_stock = s.pharmacy_stock ∧
      s'.drug_transactions = s.drug_transactions ∧
      s'.box_items = s.box_items) ∧
    (∀ b s', box_public_detail s bid = .ok (b, s') → s' = s) := by
  constructor
  · intro b s' h
    cases hf : s.boxes.find? (fun x => x.id == bid) with
    | none =>
      simp only [box_detail, hf] at h
      exact Except.noConfusion h
    | some box =>
      cases hg : boxGuard user box with
      | error e =>
        simp only [box_detail, hf, hg] at h
        exact Except.noConfusion h
      | ok v =>
        simp only [box_detail, hf, hg, Except.ok.injEq, Prod.mk.injEq] at h
        obtain ⟨hb, hs⟩ := h
        subst hb
        subst hs
        exact ⟨rfl, rfl, rfl, rfl, rfl, rfl, rfl⟩
  · intro b s' h
    cases hf : s.boxes.find? (fun x => x.id == bid) with
    | none =>
      simp only [box_public_detail, hf] at h
      exact Except.noConfusion h
    | some box =>
      simp only [box_public_detail, hf, Except.ok.injEq, Prod.mk.injEq] at h
      exact h.2.symm

/-- C9 amended-claim witness: a successful detail view on the sample state
stamps the box with the read time. -/
theorem detail_view_write_on_read_witness :
    ∃ b s', box_detail sampleState 1 (some engDoctor) 5 = .ok (b, s') ∧
      b.last_reviewed_at = some 5 := by
  refine ⟨_, _, rfl, ?_⟩
  exact ((detail_view_write_on_read sampleState 1 (some engDoctor) 5).1 _ _ rfl).1

end Antigraph
